import Mathlib

/-!
Verification of the session-management layer of `virttest/utils_libguestfs.py`
(avocado-vt).  The definitions below are a shallow embedding of the Python
source: pure string processing is translated to Lean functions over
`String`/`List Char`, and the stateful session manager (`GuestfishPersistent`)
is translated to explicit state passing over a `ManagerState` record, with the
behaviour of the external world (the guestfish subprocess, the aexpect shell
layer, `process.run`) supplied as explicit environment/oracle records.
Raised Python exceptions are modelled with `Except`.
-/

/-! ## String helpers modelling Python string primitives -/

/-- Python whitespace characters stripped by `str.strip()` (ASCII range). -/
def isPySpace (c : Char) : Bool :=
  c = ' ' || c = '\t' || c = '\n' || c = '\r' || c = '\x0b' || c = '\x0c'

/-- Strip leading and trailing whitespace from a character list. -/
def trimChars (cs : List Char) : List Char :=
  ((cs.dropWhile isPySpace).reverse.dropWhile isPySpace).reverse

/-- Python `str.strip()` with no arguments. -/
def pyStrip (s : String) : String :=
  String.mk (trimChars s.toList)

/-- Does `hay` start with `needle`? -/
def seqStartsWith : List Char → List Char → Bool
  | [], _ => true
  | _ :: _, [] => false
  | a :: as, b :: bs => a == b && seqStartsWith as bs

/-- Does `needle` occur contiguously inside `hay`? -/
def containsSeq (needle : List Char) : List Char → Bool
  | [] => seqStartsWith needle []
  | b :: bs => seqStartsWith needle (b :: bs) || containsSeq needle bs

/-- Auxiliary splitter: cut a character list at every newline character,
accumulating the current line in reverse. -/
def splitLinesAux : List Char → List Char → List String
  | [], acc => [String.mk acc.reverse]
  | '\n' :: rest, acc => String.mk acc.reverse :: splitLinesAux rest []
  | c :: rest, acc => splitLinesAux rest (c :: acc)

/-- Python `str.splitlines()` restricted to newline-terminated text (the
guestfish transport delivers newline-separated output): the empty string has
no lines, and a trailing newline does not produce a trailing empty line. -/
def splitlines (s : String) : List String :=
  match s.toList with
  | [] => []
  | c :: cs =>
    let parts := splitLinesAux (c :: cs) []
    if (c :: cs).getLast? = some '\n' then parts.dropLast else parts

/-! ## Error-pattern classification (GuestfishSession / GuestfishRemote) -/

/-- `ERROR_REGEX_LIST` from both `GuestfishSession` and `GuestfishRemote`:
the single known error-status pattern checked against command output. -/
def ERROR_REGEX_LIST : List String := ["libguestfs: error:\\s*"]

/-- The literal part of the single pattern in `ERROR_REGEX_LIST`. -/
def ERROR_MARKER : String := "libguestfs: error:"

/-- Semantics of `re.search` for the one pattern in `ERROR_REGEX_LIST`: the
regex is the literal `ERROR_MARKER` followed by a trailing whitespace-star,
which matches the empty string, so the search succeeds exactly when the
literal occurs somewhere in `s`. -/
def reSearchErrPattern (s : String) : Bool :=
  containsSeq ERROR_MARKER.toList s.toList

/-- `match_patterns(line, ERROR_REGEX_LIST) is not None`: does `line` match
one of the known error-status patterns. -/
def matchesErrorRegex (line : String) : Bool :=
  reSearchErrPattern line

/-! ## Command results and Python exceptions -/

/-- `process.CmdResult` as produced by the session layer: command text,
stdout, stderr (always empty for these transports) and exit status. -/
structure CmdResult where
  command : String
  stdout : String
  stderr : String
  exit_status : Nat
deriving Repr, DecidableEq

/-- The Python exceptions that can escape the functions modelled here. -/
inductive PyError where
  /-- `process.CmdError` raised by `cmd_result` on non-zero status;
  carries the command text. -/
  | cmdError (command : String)
  /-- `LibguestfsCmdError` with its `details` message. -/
  | libguestfsCmdError (details : String)
  /-- `aexpect.ShellStatusError`. -/
  | shellStatusError
  /-- `aexpect.ShellProcessTerminatedError`. -/
  | shellProcessTerminated
  /-- Another aexpect shell error (e.g. `ShellTimeoutError`). -/
  | otherShellError
  /-- Python `AttributeError` (method call on `None`). -/
  | attributeError
deriving Repr, DecidableEq

/-! ## GuestfishSession (interactive transport) -/

/-- The scanning loop of `GuestfishSession.cmd_status_output`: walk the lines
of the captured output and return `(1, out)` at the first line matching an
error pattern, `(0, out)` if none matches. -/
def scanErrorLoop (out : String) : List String → Nat × String
  | [] => (0, out)
  | line :: rest =>
    if matchesErrorRegex line then (1, out) else scanErrorLoop out rest

/-- `GuestfishSession.cmd_status_output`.  The text captured by `cmd_output`
(everything the subprocess printed before the prompt returned) is the oracle
argument `out`; the command itself does not influence the classification. -/
def GuestfishSession.cmd_status_output (_cmd out : String) : Nat × String :=
  scanErrorLoop out (splitlines out)

/-- `GuestfishSession.cmd_result`: build a `CmdResult` from the status and
output; when `ignore_status` is false and the status is non-zero, raise
`process.CmdError` instead of returning. -/
def GuestfishSession.cmd_result (cmd out : String) (ignore_status : Bool) :
    Except PyError CmdResult :=
  if ignore_status = false ∧ (GuestfishSession.cmd_status_output cmd out).1 ≠ 0 then
    .error (.cmdError cmd)
  else
    .ok ⟨cmd, (GuestfishSession.cmd_status_output cmd out).2, "",
      (GuestfishSession.cmd_status_output cmd out).1⟩

/-! ## GuestfishRemote (remote transport) -/

/-- Outcome of the one short-lived `process.run` invocation performed by a
remote dispatch: whether it raised `process.CmdError` (non-zero exit or
timeout, given that `cmd_result` passes a falsy `ignore_status` through), and
the text it produced on stdout. -/
structure ProcessOutcome where
  raises : Bool
  stdout : String
deriving Repr, DecidableEq

/-- The full helper command line built by `GuestfishRemote.cmd_status_output`:
`"guestfish --remote=%s " % self.a_id` prepended to the inner command. -/
def remoteFullCmd (a_id cmd : String) : String :=
  "guestfish --remote=" ++ a_id ++ " " ++ cmd

/-- The `LibguestfsCmdError` message raised when an error pattern is found on
remote output: `"Error pattern %s found on output of %s: %s"`. -/
def remoteErrMsg (pat fullCmd stripped : String) : String :=
  "Error pattern " ++ pat ++ " found on output of " ++ fullCmd ++ ": " ++ stripped

/-- `GuestfishRemote.cmd_status_output`: run the helper process; wrap a
`process.CmdError` into `LibguestfsCmdError`; then search each pattern of
`ERROR_REGEX_LIST` in the stripped stdout and raise `LibguestfsCmdError`
on a match; otherwise return `(0, stripped stdout)`.  Note that, unlike the
interactive transport, a detected error marker *raises* here and the returned
status is always 0. -/
def GuestfishRemote.cmd_status_output (a_id cmd : String) (proc : ProcessOutcome) :
    Except PyError (Nat × String) :=
  let full := remoteFullCmd a_id cmd
  if proc.raises then .error (.libguestfsCmdError full)
  else if matchesErrorRegex (pyStrip proc.stdout) then
    .error (.libguestfsCmdError
      (remoteErrMsg "libguestfs: error:\\s*" full (pyStrip proc.stdout)))
  else .ok (0, pyStrip proc.stdout)

/-- `GuestfishRemote.cmd_result` (identical in source to `GuestfishRemote.cmd`):
build a `CmdResult` from the `(status, stdout)` pair and raise
`process.CmdError` when `ignore_status` is false and the status non-zero. -/
def GuestfishRemote.cmd_result (a_id cmd : String) (proc : ProcessOutcome)
    (ignore_status : Bool) : Except PyError CmdResult :=
  match GuestfishRemote.cmd_status_output a_id cmd proc with
  | .error e => .error e
  | .ok (exit_status, stdout) =>
    if ignore_status = false ∧ exit_status ≠ 0 then .error (.cmdError cmd)
    else .ok ⟨cmd, stdout, "", exit_status⟩

/-! ## GuestfishPersistent (session manager) -/

/-- The `run_mode` argument: `"interactive"` or `"remote"`. -/
inductive RunMode where
  | interactive
  | remote
deriving Repr, DecidableEq

/-- The mutable state of a `GuestfishPersistent` manager relevant to session
lifecycle: its `run_mode` and `ignore_status` configuration fields, the
`session_id` property-slot (`none` models the slot being deleted or unset),
and the class-wide `SESSION_COUNTER`. -/
structure ManagerState where
  run_mode : RunMode
  ignore_status : Bool
  session_id : Option String
  counter : Int
deriving Repr, DecidableEq

/-- Behaviour of `existing.cmd("quit")` on the session being closed. -/
inductive QuitOutcome where
  /-- Returned normally. -/
  | ok
  /-- Raised `aexpect.ShellProcessTerminatedError` (the normal way an
  interactive quit manifests). -/
  | processTerminated
  /-- Raised `LibguestfsCmdError` (how a remote dispatch failure surfaces). -/
  | guestfsError
  /-- Raised another aexpect shell error (e.g. a timeout on a hung session). -/
  | shellError
deriving Repr, DecidableEq

/-- Environment oracle for one `close_session` attempt: whether attaching a
client to the stored id succeeds (an interactive attach may raise
`aexpect.ShellStatusError`; a remote attach never raises), the outcome of the
inner `quit`, and the two `is_alive()` probes. -/
structure SessionEnv where
  attachOk : Bool
  quit : QuitOutcome
  aliveAfterQuit : Bool
  aliveAfterClose : Bool
deriving Repr, DecidableEq

/-- Environment oracle for creating a fresh session in `new_session`: whether
spawning the new guestfish process succeeds, and the id it reports. -/
structure CreateEnv where
  createOk : Bool
  newId : String
deriving Repr, DecidableEq

/-- `GuestfishPersistent.open_session`: read the `session_id` slot (a deleted
slot raises `KeyError`, re-raised as `LibguestfsCmdError "No session id."`);
when the stored id is truthy, attach a client to it — on
`aexpect.ShellStatusError` delete the slot and raise
`LibguestfsCmdError`; a falsy stored id falls through and returns `None`.
The result pairs the (possibly updated) state with either the raised error or
the returned value (`some id` = an attached handle, `none` = Python `None`). -/
def GuestfishPersistent.open_session (st : ManagerState) (attachOk : Bool) :
    ManagerState × Except PyError (Option String) :=
  match st.session_id with
  | none => (st, .error (.libguestfsCmdError "No session id."))
  | some sid =>
    if sid = "" then (st, .ok none)
    else if st.run_mode = .remote then (st, .ok (some sid))
    else if attachOk then (st, .ok (some sid))
    else ({ st with session_id := none },
      .error (.libguestfsCmdError ("Open session " ++ sid ++ " failed.")))

/-- `GuestfishPersistent.close_session`: resolve the session and send `quit`;
on `ShellProcessTerminatedError` decrement the counter, delete the id and
return; if `quit` returned and the mode is not remote, close via aexpect when
still alive and then decrement and delete; any `LibguestfsCmdError` raised
along the way is swallowed (`pass`), other exceptions propagate. -/
def GuestfishPersistent.close_session (st : ManagerState) (env : SessionEnv) :
    ManagerState × Except PyError Unit :=
  match GuestfishPersistent.open_session st env.attachOk with
  | (st1, .error (.libguestfsCmdError _)) => (st1, .ok ())
  | (st1, .error e) => (st1, .error e)
  | (st1, .ok none) => (st1, .error .attributeError)
  | (st1, .ok (some _)) =>
    match env.quit with
    | .processTerminated =>
      ({ st1 with counter := st1.counter - 1, session_id := none }, .ok ())
    | .guestfsError => (st1, .ok ())
    | .shellError => (st1, .error .otherShellError)
    | .ok =>
      if st1.run_mode ≠ .remote then
        if env.aliveAfterQuit then
          ({ st1 with counter := st1.counter - 1, session_id := none }, .ok ())
        else (st1, .ok ())
      else (st1, .ok ())

/-- `GuestfishPersistent.new_session`: close any existing session, then start
a fresh one (remote or interactive per `run_mode`), increment the counter and
record the new id.  A failure to spawn the new process raises before the
counter is touched. -/
def GuestfishPersistent.new_session (st : ManagerState) (env : SessionEnv)
    (cenv : CreateEnv) : ManagerState × Except PyError Unit :=
  match GuestfishPersistent.close_session st env with
  | (st1, .error e) => (st1, .error e)
  | (st1, .ok ()) =>
    if cenv.createOk then
      ({ st1 with counter := st1.counter + 1, session_id := some cenv.newId },
        .ok ())
    else (st1, .error (.libguestfsCmdError "Failed to start a new session."))

/-- `GuestfishPersistent.__init__` starting from an empty `session_id` slot
(the constructor never receives a prior id): call `new_session()`, then
`open_session()`, and for a non-remote mode send the `is-config` liveness
probe with output `probeOut`, raising `aexpect.ShellStatusError` when its
classified status is non-zero. -/
def GuestfishPersistent.init (run_mode : RunMode) (ignore_status : Bool)
    (c0 : Int) (env : SessionEnv) (cenv : CreateEnv) (attachOk2 : Bool)
    (probeOut : String) : ManagerState × Except PyError Unit :=
  match GuestfishPersistent.new_session ⟨run_mode, ignore_status, none, c0⟩ env cenv with
  | (st1, .error e) => (st1, .error e)
  | (st1, .ok ()) =>
    match GuestfishPersistent.open_session st1 attachOk2 with
    | (st2, .error e) => (st2, .error e)
    | (st2, .ok h) =>
      if run_mode ≠ .remote then
        match h with
        | none => (st2, .error .attributeError)
        | some _ =>
          if (GuestfishSession.cmd_status_output "is-config" probeOut).1 ≠ 0 then
            (st2, .error .shellStatusError)
          else (st2, .ok ())
      else (st2, .ok ())

/-- Environment oracle for one `inner_cmd` dispatch: the attach outcome for
`open_session`, the text captured by the interactive session for this
command, and the process outcome of the remote helper invocation. -/
structure SendEnv where
  attachOk : Bool
  interactiveOut : String
  proc : ProcessOutcome
deriving Repr, DecidableEq

/-- `GuestfishPersistent.inner_cmd`: resolve the open session and dispatch
the command through `cmd_result` of the appropriate transport, passing the
manager's configured `ignore_status`. -/
def GuestfishPersistent.inner_cmd (st : ManagerState) (command : String)
    (env : SendEnv) : ManagerState × Except PyError CmdResult :=
  match GuestfishPersistent.open_session st env.attachOk with
  | (st1, .error e) => (st1, .error e)
  | (st1, .ok none) => (st1, .error .attributeError)
  | (st1, .ok (some sid)) =>
    match st1.run_mode with
    | .interactive =>
      (st1, GuestfishSession.cmd_result command env.interactiveOut st1.ignore_status)
    | .remote =>
      (st1, GuestfishRemote.cmd_result sid command env.proc st1.ignore_status)

/-! ## LibguestfsBase.set_timeout -/

/-- A Python value passed to `set_timeout`: an `int`, a `str`, or any other
object carrying its `str()` rendering. -/
inductive PyValue where
  | int (n : Int)
  | str (s : String)
  | other (stringRendering : String)
deriving Repr, DecidableEq

/-- Python `str()` of a `PyValue`. -/
def pyStr : PyValue → String
  | .int n => toString n
  | .str s => s
  | .other r => r

/-- Value of a list of decimal digits. -/
def digitsVal (cs : List Char) : Nat :=
  cs.foldl (fun a c => a * 10 + (c.toNat - 48)) 0

/-- After an initial digit: the remaining characters must be digits, with
single underscores allowed only between digits (Python 3 numeric literals). -/
def digitsTail : List Char → Bool
  | [] => true
  | '_' :: [] => false
  | '_' :: c :: rest => c.isDigit && digitsTail rest
  | c :: rest => c.isDigit && digitsTail rest

/-- A non-empty digit group as accepted by Python `int()`. -/
def digitsOk : List Char → Bool
  | [] => false
  | c :: rest => c.isDigit && digitsTail rest

/-- Python `int(s)` on a decimal string: optional surrounding whitespace,
optional single sign, then a non-empty digit group; `none` models the
`ValueError` raised on anything else. -/
def pyIntParse (s : String) : Option Int :=
  match trimChars s.toList with
  | [] => none
  | c :: rest =>
    let signed : Bool × List Char :=
      if c = '-' then (true, rest)
      else if c = '+' then (false, rest)
      else (false, c :: rest)
    if digitsOk signed.2 then
      some ((if signed.1 then -1 else 1) * (digitsVal (signed.2.filter (fun d => d ≠ '_')) : Int))
    else none

/-- The configuration state of `LibguestfsBase` touched by `set_timeout`. -/
structure BaseState where
  ignore_status : Bool
  debug : Bool
  timeout : Int
deriving Repr, DecidableEq

/-- `LibguestfsBase.set_timeout`: store the value directly when it is an
`int`; otherwise try `int(str(timeout))` and store the result; on
`ValueError` only log — the state is left untouched and nothing is raised. -/
def LibguestfsBase.set_timeout (st : BaseState) (v : PyValue) : BaseState :=
  match v with
  | .int n => { st with timeout := n }
  | _ =>
    match pyIntParse (pyStr v) with
    | some n => { st with timeout := n }
    | none => st

/-! ## Helper lemmas -/

theorem scanErrorLoop_snd (out : String) (ls : List String) :
    (scanErrorLoop out ls).2 = out := by
  induction ls with
  | nil => rfl
  | cons l ls ih =>
    by_cases h : matchesErrorRegex l <;> simp [scanErrorLoop, h, ih]

theorem scanErrorLoop_fst (out : String) (ls : List String) :
    (scanErrorLoop out ls).1 = if ls.any matchesErrorRegex = true then 1 else 0 := by
  induction ls with
  | nil => rfl
  | cons l ls ih =>
    by_cases h : matchesErrorRegex l = true <;> simp [scanErrorLoop, h, ih]

theorem close_session_no_id (st : ManagerState) (env : SessionEnv)
    (h : st.session_id = none) :
    GuestfishPersistent.close_session st env = (st, .ok ()) := by
  simp [GuestfishPersistent.close_session, GuestfishPersistent.open_session, h]

theorem open_session_truthy_interactive (st : ManagerState) (sid : String)
    (hsid : st.session_id = some sid) (hne : sid ≠ "")
    (hmode : st.run_mode = .interactive) :
    GuestfishPersistent.open_session st true = (st, .ok (some sid)) := by
  simp [GuestfishPersistent.open_session, hsid, hne, hmode]

theorem open_session_truthy_remote (st : ManagerState) (sid : String) (b : Bool)
    (hsid : st.session_id = some sid) (hne : sid ≠ "")
    (hmode : st.run_mode = .remote) :
    GuestfishPersistent.open_session st b = (st, .ok (some sid)) := by
  simp [GuestfishPersistent.open_session, hsid, hne, hmode]

theorem close_session_interactive_terminated (st : ManagerState) (sid : String)
    (env : SessionEnv) (hsid : st.session_id = some sid) (hne : sid ≠ "")
    (hmode : st.run_mode = .interactive) (hattach : env.attachOk = true)
    (hquit : env.quit = .processTerminated) :
    GuestfishPersistent.close_session st env =
      ({ st with counter := st.counter - 1, session_id := none }, .ok ()) := by
  unfold GuestfishPersistent.close_session
  rw [hattach, open_session_truthy_interactive st sid hsid hne hmode, hquit]

theorem new_session_interactive_confirmed (st : ManagerState) (sid : String)
    (env : SessionEnv) (cenv : CreateEnv)
    (hsid : st.session_id = some sid) (hne : sid ≠ "")
    (hmode : st.run_mode = .interactive) (hattach : env.attachOk = true)
    (hquit : env.quit = .processTerminated) (hcreate : cenv.createOk = true) :
    GuestfishPersistent.new_session st env cenv =
      (⟨st.run_mode, st.ignore_status, some cenv.newId, st.counter⟩, .ok ()) := by
  unfold GuestfishPersistent.new_session
  rw [close_session_interactive_terminated st sid env hsid hne hmode hattach hquit]
  have hc : st.counter - 1 + 1 = st.counter := by omega
  simp [hcreate, hc]

theorem cmd_status_output_snd (cmd out : String) :
    (GuestfishSession.cmd_status_output cmd out).2 = out := by
  unfold GuestfishSession.cmd_status_output
  exact scanErrorLoop_snd out _

theorem session_cmd_result_error_iff (cmd out : String) (ig : Bool) :
    (GuestfishSession.cmd_result cmd out ig = .error (.cmdError cmd) ↔
      ig = false ∧ (GuestfishSession.cmd_status_output cmd out).1 ≠ 0) := by
  unfold GuestfishSession.cmd_result
  split
  case isTrue h => simp [h]
  case isFalse h => simp [h]

theorem session_cmd_result_ignored (cmd out : String) :
    GuestfishSession.cmd_result cmd out true =
      .ok ⟨cmd, out, "", (GuestfishSession.cmd_status_output cmd out).1⟩ := by
  unfold GuestfishSession.cmd_result
  rw [cmd_status_output_snd]
  simp

theorem session_cmd_result_ok_command (cmd out : String) (ig : Bool) (r : CmdResult)
    (h : GuestfishSession.cmd_result cmd out ig = .ok r) : r.command = cmd := by
  unfold GuestfishSession.cmd_result at h
  split at h
  · exact absurd h (by simp)
  · simp only [Except.ok.injEq] at h
    subst h
    rfl

theorem remote_cmd_result_ok_command (a_id cmd : String) (proc : ProcessOutcome)
    (ig : Bool) (r : CmdResult)
    (h : GuestfishRemote.cmd_result a_id cmd proc ig = .ok r) : r.command = cmd := by
  unfold GuestfishRemote.cmd_result at h
  split at h
  · exact absurd h (by simp)
  · split at h
    · exact absurd h (by simp)
    · simp only [Except.ok.injEq] at h
      subst h
      rfl

/-! ## Claims -/

/-- C1: for every command sent through the interactive session, the status
returned by `GuestfishSession.cmd_status_output` is 1 exactly when some line
of the captured output matches a pattern of `ERROR_REGEX_LIST`, and 0 exactly
when no line matches, whatever the other lines are; the output is returned
unchanged alongside the status. -/
theorem c1_cmd_status_output_classifies_by_error_lines (cmd out : String) :
    ((GuestfishSession.cmd_status_output cmd out).1 = 1 ↔
      ∃ line ∈ splitlines out, matchesErrorRegex line = true) ∧
    ((GuestfishSession.cmd_status_output cmd out).1 = 0 ↔
      ∀ line ∈ splitlines out, matchesErrorRegex line = false) ∧
    (GuestfishSession.cmd_status_output cmd out).2 = out := by
  refine ⟨?_, ?_, cmd_status_output_snd cmd out⟩
  · unfold GuestfishSession.cmd_status_output
    rw [scanErrorLoop_fst]
    constructor
    · intro h1
      by_cases hc : (splitlines out).any matchesErrorRegex = true
      · exact List.any_eq_true.mp hc
      · simp [hc] at h1
    · intro hex
      simp [List.any_eq_true.mpr hex]
  · unfold GuestfishSession.cmd_status_output
    rw [scanErrorLoop_fst]
    constructor
    · intro h0 line hl
      by_cases hc : matchesErrorRegex line = true
      · have : (splitlines out).any matchesErrorRegex = true :=
          List.any_eq_true.mpr ⟨line, hl, hc⟩
        simp [this] at h0
      · simpa using hc
    · intro hall
      have : ¬ (splitlines out).any matchesErrorRegex = true := by
        intro hx
        obtain ⟨l, hl, hp⟩ := List.any_eq_true.mp hx
        exact absurd (hall l hl) (by simp [hp])
      simp [this]

/-- C2: whenever `GuestfishPersistent.inner_cmd` returns a `CmdResult`
(on either transport), its `command` field is the dispatched text, verbatim. -/
theorem c2_inner_cmd_result_command_verbatim (st : ManagerState)
    (command : String) (env : SendEnv) (r : CmdResult)
    (h : (GuestfishPersistent.inner_cmd st command env).2 = .ok r) :
    r.command = command := by
  unfold GuestfishPersistent.inner_cmd at h
  split at h
  · exact absurd h (by simp)
  · exact absurd h (by simp)
  · split at h
    · exact session_cmd_result_ok_command _ _ _ r h
    · exact remote_cmd_result_ok_command _ _ _ _ r h

/-- C3 counterexample: the claim says a second `close_session()` never raises.
On a hung interactive session whose inner `quit` raises a shell error other
than process-termination (e.g. a shell timeout) — an exception the source
explicitly lets propagate — the first call leaves the state untouched and the
second call raises that same shell error. -/
theorem c3_counterexample_second_close_raises :
    (GuestfishPersistent.close_session
      (GuestfishPersistent.close_session
        ⟨.interactive, true, some "a", 0⟩ ⟨true, .shellError, true, true⟩).1
      ⟨true, .shellError, true, true⟩).2 = .error .otherShellError := rfl

/-- C3 (amended): whenever the first `close_session()` confirmed the close by
clearing the stored session identifier, a second `close_session()` is a
strict no-op: it returns normally (never raises) and leaves the whole state —
in particular the session counter — unchanged. -/
theorem c3_amended_second_close_noop_after_confirmed_close (st : ManagerState)
    (env1 env2 : SessionEnv)
    (h : ((GuestfishPersistent.close_session st env1).1).session_id = none) :
    GuestfishPersistent.close_session
        (GuestfishPersistent.close_session st env1).1 env2 =
      ((GuestfishPersistent.close_session st env1).1, .ok ()) :=
  close_session_no_id _ _ h

/-- C3 witness: a normally-terminating interactive close clears the id, and
the second close is then a no-op. -/
theorem c3_witness :
    ((GuestfishPersistent.close_session
        ⟨.interactive, true, some "a", 5⟩ ⟨true, .processTerminated, true, true⟩).1).session_id
      = none ∧
    GuestfishPersistent.close_session
        (GuestfishPersistent.close_session
          ⟨.interactive, true, some "a", 5⟩ ⟨true, .processTerminated, true, true⟩).1
        ⟨true, .ok, true, true⟩ =
      ((GuestfishPersistent.close_session
        ⟨.interactive, true, some "a", 5⟩ ⟨true, .processTerminated, true, true⟩).1, .ok ()) :=
  ⟨rfl, c3_amended_second_close_noop_after_confirmed_close
    ⟨.interactive, true, some "a", 5⟩ ⟨true, .processTerminated, true, true⟩
    ⟨true, .ok, true, true⟩ rfl⟩

/-- C4 counterexample: on the remote transport `close_session` never
decrements the counter (quitting a remote session succeeds without an
`aexpect.ShellProcessTerminatedError`, and the decrement branch after
signal shutdown is gated on non-remote mode), so two consecutive
`new_session()` calls on a remote manager raise the counter from 0 to 2
instead of leaving it unchanged. -/
theorem c4_counterexample_remote_counter_increases :
    ((⟨RunMode.remote, true, some "1", 0⟩ : ManagerState).counter = 0) ∧
    (GuestfishPersistent.new_session
        (GuestfishPersistent.new_session
          ⟨.remote, true, some "1", 0⟩ ⟨true, .ok, true, true⟩ ⟨true, "2"⟩).1
        ⟨true, .ok, true, true⟩ ⟨true, "3"⟩).1.counter = 2 :=
  ⟨rfl, rfl⟩

/-- C4 (amended): for an interactive-mode manager with one open session whose
closes confirm termination (the inner `quit` raises process-termination) and
whose session creations succeed, two consecutive `new_session()` calls both
return normally, leave exactly one session open (the identifier of the second
fresh session) and leave the session counter unchanged from its value before
the first call.  On the remote transport `close_session` does not decrement,
so each `new_session` instead increases the counter by one. -/
theorem c4_amended_interactive_two_new_sessions (st : ManagerState)
    (sid : String) (env1 env2 : SessionEnv) (cenv1 cenv2 : CreateEnv)
    (hmode : st.run_mode = .interactive)
    (hsid : st.session_id = some sid) (hne : sid ≠ "")
    (h1a : env1.attachOk = true) (h1q : env1.quit = .processTerminated)
    (h2a : env2.attachOk = true) (h2q : env2.quit = .processTerminated)
    (hc1 : cenv1.createOk = true) (hn1 : cenv1.newId ≠ "")
    (hc2 : cenv2.createOk = true) :
    (GuestfishPersistent.new_session st env1 cenv1).2 = .ok () ∧
    (GuestfishPersistent.new_session st env1 cenv1).1.session_id = some cenv1.newId ∧
    (GuestfishPersistent.new_session st env1 cenv1).1.counter = st.counter ∧
    GuestfishPersistent.new_session
        (GuestfishPersistent.new_session st env1 cenv1).1 env2 cenv2 =
      (⟨st.run_mode, st.ignore_status, some cenv2.newId, st.counter⟩, .ok ()) := by
  have h1 := new_session_interactive_confirmed st sid env1 cenv1 hsid hne hmode h1a h1q hc1
  refine ⟨by rw [h1], by rw [h1], by rw [h1], ?_⟩
  rw [h1]
  exact new_session_interactive_confirmed _ cenv1.newId env2 cenv2 rfl hn1 hmode h2a h2q hc2

/-- C4 witness: concrete interactive manager, two confirmed-close
`new_session` calls keep the counter at its initial value 7. -/
theorem c4_witness :
    GuestfishPersistent.new_session
        (GuestfishPersistent.new_session
          ⟨.interactive, false, some "s0", 7⟩
          ⟨true, .processTerminated, true, true⟩ ⟨true, "s1"⟩).1
        ⟨true, .processTerminated, true, true⟩ ⟨true, "s2"⟩ =
      (⟨.interactive, false, some "s2", 7⟩, .ok ()) :=
  (c4_amended_interactive_two_new_sessions
    ⟨.interactive, false, some "s0", 7⟩ "s0"
    ⟨true, .processTerminated, true, true⟩ ⟨true, .processTerminated, true, true⟩
    ⟨true, "s1"⟩ ⟨true, "s2"⟩
    rfl rfl (by decide) rfl rfl rfl rfl rfl (by decide) rfl).2.2.2

/-- C5: constructing a manager with no prior identifier, with a successful
session spawn, ends with exactly one open session and the counter incremented
by exactly one; for a non-remote mode the `is-config` liveness probe decides
whether construction succeeds or raises `aexpect.ShellStatusError`, and for
the remote mode the probe is skipped and construction succeeds whatever the
probe output would have been. -/
theorem c5_init_one_session_counter_and_probe (rm : RunMode) (ig : Bool)
    (c0 : Int) (env : SessionEnv) (cenv : CreateEnv) (probeOut : String)
    (hc : cenv.createOk = true) (hn : cenv.newId ≠ "") :
    ((GuestfishPersistent.init rm ig c0 env cenv true probeOut).1.counter = c0 + 1) ∧
    ((GuestfishPersistent.init rm ig c0 env cenv true probeOut).1.session_id
      = some cenv.newId) ∧
    (rm = .remote →
      (GuestfishPersistent.init rm ig c0 env cenv true probeOut).2 = .ok ()) ∧
    (rm = .interactive →
      (GuestfishSession.cmd_status_output "is-config" probeOut).1 = 0 →
        (GuestfishPersistent.init rm ig c0 env cenv true probeOut).2 = .ok ()) ∧
    (rm = .interactive →
      (GuestfishSession.cmd_status_output "is-config" probeOut).1 ≠ 0 →
        (GuestfishPersistent.init rm ig c0 env cenv true probeOut).2
          = .error .shellStatusError) := by
  have hstep : GuestfishPersistent.new_session ⟨rm, ig, none, c0⟩ env cenv =
      (⟨rm, ig, some cenv.newId, c0 + 1⟩, .ok ()) := by
    unfold GuestfishPersistent.new_session
    rw [close_session_no_id ⟨rm, ig, none, c0⟩ env rfl]
    simp [hc]
  cases rm with
  | remote =>
    unfold GuestfishPersistent.init
    simp only [hstep, open_session_truthy_remote ⟨.remote, ig, some cenv.newId, c0 + 1⟩
      cenv.newId true rfl hn rfl]
    simp
  | interactive =>
    unfold GuestfishPersistent.init
    simp only [hstep, open_session_truthy_interactive ⟨.interactive, ig, some cenv.newId, c0 + 1⟩
      cenv.newId rfl hn rfl]
    by_cases hp : (GuestfishSession.cmd_status_output "is-config" probeOut).1 = 0
    · simp [hp]
    · simp [hp]

/-- C5 witness: interactive construction with a clean probe succeeds with
counter 0 + 1 = 1. -/
theorem c5_witness :
    (GuestfishPersistent.init .interactive true 0
        ⟨true, .ok, true, true⟩ ⟨true, "7"⟩ true "").1.counter = 0 + 1 :=
  (c5_init_one_session_counter_and_probe .interactive true 0
    ⟨true, .ok, true, true⟩ ⟨true, "7"⟩ "" rfl (by decide)).1

/-- C6 counterexample: the claim says that when the policy is to ignore
status, a detected failure is returned as a non-zero-status result without
raising.  On the remote transport with `ignore_status = True`, a dispatched
command whose output carries the error marker makes `inner_cmd` raise
`LibguestfsCmdError` instead of returning a result. -/
theorem c6_counterexample_remote_raises_despite_ignore :
    ((⟨RunMode.remote, true, some "5", 0⟩ : ManagerState).ignore_status = true) ∧
    (GuestfishPersistent.inner_cmd ⟨.remote, true, some "5", 0⟩ "ll /"
        ⟨true, "", ⟨false, "libguestfs: error: x"⟩⟩).2 =
      .error (.libguestfsCmdError (remoteErrMsg "libguestfs: error:\\s*"
        (remoteFullCmd "5" "ll /") "libguestfs: error: x")) :=
  ⟨rfl, rfl⟩

/-- C6 (amended): on the interactive transport, `inner_cmd` raises the
command error `process.CmdError` exactly when `ignore_status` is false and
the classified status of the dispatched command is non-zero, and with
`ignore_status` true the (possibly non-zero-status) result is returned to the
caller without raising.  On the remote transport a detected error marker
raises `LibguestfsCmdError` regardless of the policy. -/
theorem c6_amended_interactive_raise_iff (st : ManagerState) (command : String)
    (env : SendEnv) (sid : String)
    (hmode : st.run_mode = .interactive) (hsid : st.session_id = some sid)
    (hne : sid ≠ "") (hattach : env.attachOk = true) :
    ((GuestfishPersistent.inner_cmd st command env).2 = .error (.cmdError command) ↔
      st.ignore_status = false ∧
        (GuestfishSession.cmd_status_output command env.interactiveOut).1 ≠ 0) ∧
    (st.ignore_status = true →
      (GuestfishPersistent.inner_cmd st command env).2 =
        .ok ⟨command, env.interactiveOut, "",
          (GuestfishSession.cmd_status_output command env.interactiveOut).1⟩) := by
  unfold GuestfishPersistent.inner_cmd
  rw [hattach]
  simp only [open_session_truthy_interactive st sid hsid hne hmode, hmode]
  constructor
  · exact session_cmd_result_error_iff command env.interactiveOut st.ignore_status
  · intro hig
    rw [hig]
    exact session_cmd_result_ignored command env.interactiveOut

/-- C6 witness: interactive dispatch with `ignore_status = False` and
error-marker output raises the command error. -/
theorem c6_witness :
    (GuestfishPersistent.inner_cmd ⟨.interactive, false, some "s", 3⟩ "ls"
        ⟨true, "libguestfs: error: y", ⟨false, ""⟩⟩).2 = .error (.cmdError "ls") :=
  (c6_amended_interactive_raise_iff ⟨.interactive, false, some "s", 3⟩ "ls"
    ⟨true, "libguestfs: error: y", ⟨false, ""⟩⟩ "s" rfl rfl (by decide) rfl).1.mpr
    ⟨rfl, by decide⟩

/-- C7: when the stored identifier refers to a session whose attach raises a
shell-status error, `open_session` clears the stored identifier and raises
`LibguestfsCmdError`; from then on, `open_session` raises the
`"No session id."` error whatever the attach outcome, until `new_session` is
called again. -/
theorem c7_open_session_clears_id_and_fails (st : ManagerState) (sid : String)
    (b : Bool) (hmode : st.run_mode = .interactive)
    (hsid : st.session_id = some sid) (hne : sid ≠ "") :
    GuestfishPersistent.open_session st false =
      ({ st with session_id := none },
        .error (.libguestfsCmdError ("Open session " ++ sid ++ " failed."))) ∧
    GuestfishPersistent.open_session { st with session_id := none } b =
      ({ st with session_id := none },
        .error (.libguestfsCmdError "No session id.")) := by
  constructor
  · simp [GuestfishPersistent.open_session, hsid, hne, hmode]
  · simp [GuestfishPersistent.open_session]

/-- C7 witness: a concrete dead interactive session: failing attach clears
the id, and the next `open_session` reports no session id. -/
theorem c7_witness :
    GuestfishPersistent.open_session ⟨.interactive, true, some "9", 2⟩ false =
      (⟨.interactive, true, none, 2⟩,
        .error (.libguestfsCmdError ("Open session " ++ "9" ++ " failed."))) ∧
    GuestfishPersistent.open_session ⟨.interactive, true, none, 2⟩ true =
      (⟨.interactive, true, none, 2⟩,
        .error (.libguestfsCmdError "No session id.")) :=
  c7_open_session_clears_id_and_fails ⟨.interactive, true, some "9", 2⟩ "9" true
    rfl rfl (by decide)

/-- C8 counterexample: the claim says a remote command whose output matches
an error marker surfaces as a non-zero status in the returned pair, escalated
only per the ignore-status policy.  With the policy set to ignore
(`ignore_status = True`), the remote transport still raises
`LibguestfsCmdError` instead of returning `(1, output)`. -/
theorem c8_counterexample_remote_marker_raises_when_ignoring :
    GuestfishRemote.cmd_result "1" "mount /dev/sda1 /"
        ⟨false, "libguestfs: error: mount failed"⟩ true =
      .error (.libguestfsCmdError (remoteErrMsg "libguestfs: error:\\s*"
        (remoteFullCmd "1" "mount /dev/sda1 /") "libguestfs: error: mount failed")) :=
  rfl

/-- C8 (amended): on the remote transport, a command whose helper process
succeeded but whose stripped output matches a known error marker always
raises `LibguestfsCmdError`, for every ignore-status policy — the tool-level
error is never surfaced as a non-zero status, unlike on the interactive
transport. -/
theorem c8_amended_remote_marker_always_raises (a_id cmd : String)
    (proc : ProcessOutcome) (ig : Bool)
    (h1 : proc.raises = false)
    (h2 : matchesErrorRegex (pyStrip proc.stdout) = true) :
    GuestfishRemote.cmd_result a_id cmd proc ig =
      .error (.libguestfsCmdError (remoteErrMsg "libguestfs: error:\\s*"
        (remoteFullCmd a_id cmd) (pyStrip proc.stdout))) := by
  unfold GuestfishRemote.cmd_result GuestfishRemote.cmd_status_output
  rw [h1]
  simp [h2]

/-- C8 witness: a concrete remote dispatch with marker output raises even
with the lenient policy. -/
theorem c8_witness :
    GuestfishRemote.cmd_result "7" "df" ⟨false, " libguestfs: error: z "⟩ false =
      .error (.libguestfsCmdError (remoteErrMsg "libguestfs: error:\\s*"
        (remoteFullCmd "7" "df") (pyStrip " libguestfs: error: z "))) :=
  c8_amended_remote_marker_always_raises "7" "df"
    ⟨false, " libguestfs: error: z "⟩ false rfl (by decide)

/-- C9: in remote mode, when the inner `quit` completes without raising, the
whole `close_session` call returns normally with the manager state — session
counter and stored identifier — unchanged: the decrement-and-delete branch
after signal shutdown runs only for the non-remote mode. -/
theorem c9_remote_close_preserves_state (st : ManagerState) (env : SessionEnv)
    (sid : String) (hmode : st.run_mode = .remote)
    (hsid : st.session_id = some sid) (hne : sid ≠ "")
    (hq : env.quit = .ok) :
    GuestfishPersistent.close_session st env = (st, .ok ()) := by
  unfold GuestfishPersistent.close_session
  rw [open_session_truthy_remote st sid env.attachOk hsid hne hmode, hq]
  simp [hmode]

/-- C9 witness: a concrete remote close with successful quit leaves counter
and identifier untouched. -/
theorem c9_witness :
    GuestfishPersistent.close_session ⟨.remote, true, some "4", 1⟩
        ⟨true, .ok, false, false⟩ =
      (⟨.remote, true, some "4", 1⟩, .ok ()) :=
  c9_remote_close_preserves_state ⟨.remote, true, some "4", 1⟩
    ⟨true, .ok, false, false⟩ "4" rfl rfl (by decide) rfl

/-- C10: `LibguestfsBase.set_timeout` on a value that is not an `int` and
whose `str()` rendering Python `int()` cannot parse returns without raising
and leaves the stored configuration — in particular the timeout — unchanged. -/
theorem c10_set_timeout_invalid_unchanged (st : BaseState) (v : PyValue)
    (hint : ∀ n : Int, v ≠ .int n)
    (hconv : pyIntParse (pyStr v) = none) :
    LibguestfsBase.set_timeout st v = st := by
  cases v with
  | int n => exact absurd rfl (hint n)
  | str s =>
    simp only [pyStr] at hconv
    simp [LibguestfsBase.set_timeout, pyStr, hconv]
  | other r =>
    simp only [pyStr] at hconv
    simp [LibguestfsBase.set_timeout, pyStr, hconv]

/-- C10 witness: setting the timeout to the unparsable string
`"2.5 seconds"` leaves the stored timeout at 60. -/
theorem c10_witness :
    LibguestfsBase.set_timeout ⟨true, false, 60⟩ (.str "2.5 seconds") =
      ⟨true, false, 60⟩ :=
  c10_set_timeout_invalid_unchanged ⟨true, false, 60⟩ (.str "2.5 seconds")
    (fun n h => by cases h) (by decide)

/-- C2 witness: a concrete interactive dispatch returns a result whose
command field is the sent text. -/
theorem c2_witness :
    (GuestfishPersistent.inner_cmd ⟨.interactive, true, some "a", 0⟩ "ls"
        ⟨true, "f1\nf2", ⟨false, ""⟩⟩).2 = .ok ⟨"ls", "f1\nf2", "", 0⟩ ∧
    (⟨"ls", "f1\nf2", "", 0⟩ : CmdResult).command = "ls" :=
  ⟨rfl, c2_inner_cmd_result_command_verbatim ⟨.interactive, true, some "a", 0⟩ "ls"
    ⟨true, "f1\nf2", ⟨false, ""⟩⟩ ⟨"ls", "f1\nf2", "", 0⟩ rfl⟩
